import Mathlib

/-!
Verification of the SCons protoc tool (protoc.py).

The file shallowly embeds the tool's logic:
* the source-path correction inside `_ProtocEmitter` (os.path.commonprefix
  based stripping),
* the per-language output prediction (`.pb.cc`/`.pb.h`, `_pb2.py`,
  `_pb2.java`) and the optional `PROTOCFDSOUT` descriptor-set append,
* the construction-variable and builder registration done by `generate`,
* the command-line token layout described by the `PROTOCCOM_START`,
  per-language flag and `PROTOCCOM_END` templates.

SCons environments are modelled by an explicit `Env` structure; the
emitter's mutation of the environment (`env.Prepend(PROTOCPROTOPATH=...)`)
is modelled by returning an updated `Env`.
-/

/-- The three output languages supported by the tool. -/
inductive Lang where
  | cpp
  | python
  | java
deriving DecidableEq

/-- An SCons builder as far as this tool configures one: the action's
command-template string, which language emitter is attached (none for a
foreign/customized builder), and the source-suffix template. -/
structure Builder where
  action : String
  emitterLang : Option Lang
  srcsuffix : String
deriving DecidableEq

/-- ProtocCPPBuilder (protoc.py lines 117-119): CPP action plus CPP emitter. -/
def ProtocCPPBuilder : Builder :=
  { action := "$PROTOCCOM_START $PROTOCCPPFLAG $PROTOCCOM_END"
    emitterLang := some Lang.cpp
    srcsuffix := "$PROTOCSRCSUFFIX" }

/-- ProtocPythonBuilder (protoc.py lines 113-115). -/
def ProtocPythonBuilder : Builder :=
  { action := "$PROTOCCOM_START $PROTOCPYTHONFLAG $PROTOCCOM_END"
    emitterLang := some Lang.python
    srcsuffix := "$PROTOCSRCSUFFIX" }

/-- ProtocJavaBuilder (protoc.py lines 109-111). -/
def ProtocJavaBuilder : Builder :=
  { action := "$PROTOCCOM_START $PROTOCJAVAFLAG $PROTOCCOM_END"
    emitterLang := some Lang.java
    srcsuffix := "$PROTOCSRCSUFFIX" }

/-- The `_builder_dict` literal (protoc.py lines 121-123), in its Python
insertion order, which is the order `generate` iterates over. -/
def builderDict : List (String × Builder) :=
  [("ProtocCPP", ProtocCPPBuilder),
   ("ProtocPython", ProtocPythonBuilder),
   ("ProtocJava", ProtocJavaBuilder)]

/-- The relevant slice of an SCons construction environment: the BUILDERS
dictionary (as an insertion-ordered association list) and every
construction variable protoc.py reads or writes.  A variable that is
absent from the environment (Python KeyError on lookup) is `none`. -/
structure Env where
  builders : List (String × Builder)
  PROTOC : Option String
  PROTOCFLAGS : Option (List String)
  PROTOCPROTOPATH : Option (List String)
  PROTOCCOM_START : Option String
  PROTOCCOM_END : Option String
  PROTOCOUTDIR : Option String
  PROTOCPYTHONOUTDIR : Option String
  PROTOCJAVAOUTDIR : Option String
  PROTOCJAVAFLAG : Option String
  PROTOCPYTHONFLAG : Option String
  PROTOCCPPFLAG : Option String
  PROTOCSRCSUFFIX : Option String
  PROTOCFDSOUT : Option String
deriving DecidableEq

/-- An environment with all protoc keys absent and no builders. -/
def emptyEnv : Env :=
  { builders := []
    PROTOC := none
    PROTOCFLAGS := none
    PROTOCPROTOPATH := none
    PROTOCCOM_START := none
    PROTOCCOM_END := none
    PROTOCOUTDIR := none
    PROTOCPYTHONOUTDIR := none
    PROTOCJAVAOUTDIR := none
    PROTOCJAVAFLAG := none
    PROTOCPYTHONFLAG := none
    PROTOCCPPFLAG := none
    PROTOCSRCSUFFIX := none
    PROTOCFDSOUT := none }

/-- Dictionary lookup in the BUILDERS association list (Python dict
indexing `env['BUILDERS'][key]`; `none` models the KeyError branch). -/
def lookupB : List (String × Builder) → String → Option Builder
  | [], _ => none
  | p :: rest, key => if p.1 = key then some p.2 else lookupB rest key

/-- The builder-registration loop of `generate` (protoc.py lines 130-137):
for each key of `_builder_dict`, keep an already-present builder, otherwise
insert the default one (dict assignment of a fresh key appends). -/
def registerBuilders : List (String × Builder) → List (String × Builder) → List (String × Builder)
  | bs, [] => bs
  | bs, p :: rest =>
      match lookupB bs p.1 with
      | some _ => registerBuilders bs rest
      | none => registerBuilders (bs ++ [p]) rest

/-- Python truthiness of `x or default` for `env.Detect(protocs) or 'protoc'`:
`None` and the empty string are falsy. -/
def pyOr (x : Option String) (default : String) : String :=
  match x with
  | none => default
  | some s => if s = "" then default else s

/-- The literal `PROTOCCOM_START` template string set by `generate`
(protoc.py line 145). -/
def protocComStartTemplate : String :=
  "$PROTOC $\x7b[\"-I%s\"%x for x in PROTOCPROTOPATH]\x7d $PROTOCFLAGS $\x7bPROTOCFDSOUT and (\"-o\"+PROTOCFDSOUT) or \"\"\x7d"

/-- `generate(env)` (protoc.py lines 125-164).  `detect` is the result of
`env.Detect(protocs)` (an external probe; `none` when the executable is not
found).  Builders already present are kept; every construction variable
below is assigned unconditionally, exactly as in the source.  `generate`
contains no failure path: it is a total function. -/
def generate (detect : Option String) (env : Env) : Env :=
  { env with
    builders := registerBuilders env.builders builderDict
    PROTOC := some (pyOr detect "protoc")
    PROTOCFLAGS := some []
    PROTOCPROTOPATH := some []
    PROTOCCOM_START := some protocComStartTemplate
    PROTOCCOM_END := some "$\x7bSOURCES\x7d"
    PROTOCOUTDIR := some "$\x7bSOURCE.dir\x7d"
    PROTOCPYTHONOUTDIR := some "python"
    PROTOCJAVAOUTDIR := some "java"
    PROTOCJAVAFLAG := some "--java_out=$\x7bPROTOCJAVAOUTDIR\x7d"
    PROTOCPYTHONFLAG := some "--python_out=$\x7bPROTOCPYTHONOUTDIR\x7d"
    PROTOCCPPFLAG := some "--cpp_out=$\x7bPROTOCOUTDIR\x7d"
    PROTOCSRCSUFFIX := some ".proto" }

/-- Character-wise longest common run of two character lists; this is what
`os.path.commonprefix` computes on a two-element list (a raw string match,
not component-aware). -/
def lcpList : List Char → List Char → List Char
  | a :: as, b :: bs => if a = b then a :: lcpList as bs else []
  | _, _ => []

/-- `os.path.commonprefix([a, b])` on strings. -/
def strLcp (a b : String) : String := String.mk (lcpList a.data b.data)

/-- Python slicing `s[n:]` on a string. -/
def strDrop (s : String) (n : Nat) : String := String.mk (s.data.drop n)

/-- The per-source path correction of `_ProtocEmitter` (protoc.py lines
63-71): when `os.path.commonprefix` of the calling directory and the
source path is non-empty, the source path loses its first
`len(commonprefix + os.sep)` characters; otherwise it is kept unchanged. -/
def resolveSource (baseDir src : String) : String :=
  let cp := strLcp baseDir src
  if 0 < cp.length then strDrop src (cp.length + 1) else src

/-- `str.rfind(c)` on a character list: highest index of `c`, `-1` when
absent. -/
def lastIdxAux (c : Char) : List Char → Nat → Int → Int
  | [], _, acc => acc
  | x :: xs, i, acc => lastIdxAux c xs (i + 1) (if x = c then Int.ofNat i else acc)

/-- `str.rfind(c)` on a string's characters. -/
def lastIdx (c : Char) (l : List Char) : Int := lastIdxAux c l 0 (-1)

/-- `os.path.splitext(p)` for POSIX paths (CPython genericpath._splitext):
split at the last dot when it lies strictly inside the final component and
the component does not consist solely of leading dots up to it. -/
def ospath_splitext (p : String) : String × String :=
  let l := p.data
  let sepIndex := lastIdx '/' l
  let dotIndex := lastIdx '.' l
  if sepIndex < dotIndex then
    let fnameChars := (l.take dotIndex.toNat).drop (sepIndex + 1).toNat
    if fnameChars.any (fun ch => ch ≠ '.') then
      (String.mk (l.take dotIndex.toNat), String.mk (l.drop dotIndex.toNat))
    else (p, "")
  else (p, "")

/-- Does the string start with the POSIX path separator? -/
def startsWithSep (b : String) : Bool :=
  match b.data with
  | '/' :: _ => true
  | _ => false

/-- Does the string end with the POSIX path separator? -/
def endsWithSep (a : String) : Bool :=
  match a.data.getLast? with
  | some c => c = '/'
  | none => false

/-- `os.path.join(a, b)` for POSIX paths (posixpath.join with two
components). -/
def ospath_join (a b : String) : String :=
  if startsWithSep b then b
  else if a.data = [] || endsWithSep a then a ++ b
  else a ++ "/" ++ b

/-- The per-language target computation of `_ProtocEmitter` for one
already-corrected source path (protoc.py lines 75-86): strip the extension
to get `modulename`, join it onto the language's output directory and add
the language's generated-file suffixes. -/
def predictOutputs (outdir : String) (lang : Lang) (src : String) : List String :=
  let modulename := (ospath_splitext src).1
  match lang with
  | Lang.cpp =>
      let base := ospath_join outdir modulename
      [base ++ ".pb.cc", base ++ ".pb.h"]
  | Lang.python =>
      let base := ospath_join outdir modulename
      [base ++ "_pb2.py"]
  | Lang.java =>
      let base := ospath_join outdir modulename
      [base ++ "_pb2.java"]

/-- The construction variable holding a language's output directory, as
read by the corresponding branch of `_ProtocEmitter`. -/
def Env.outdirFor (env : Env) : Lang → Option String
  | Lang.cpp => env.PROTOCOUTDIR
  | Lang.python => env.PROTOCPYTHONOUTDIR
  | Lang.java => env.PROTOCJAVAOUTDIR

/-- The environment mutation performed by every `_ProtocEmitter` call
(protoc.py line 59): `env.Prepend(PROTOCPROTOPATH = dir)` prepends the
calling SConscript's source directory to the include-path list (creating
the list when the key is absent). -/
def emitEnvEffect (callingDir : String) (env : Env) : Env :=
  { env with PROTOCPROTOPATH := some (callingDir :: env.PROTOCPROTOPATH.getD []) }

/-- The target-accumulation loop of `_ProtocEmitter` (lines 75-86): each
corrected source contributes its language outputs, in source order. -/
def emitTargets (outdir : String) (lang : Lang) : List String → List String
  | [] => []
  | src :: rest => predictOutputs outdir lang src ++ emitTargets outdir lang rest

/-- The loop of lines 75-86 including its failure mode: the language's
output-directory variable is only read inside the loop body, so a missing
variable raises KeyError (modelled as `none`) only when there is at least
one source. -/
def perSrcTargets (env1 : Env) (lang : Lang) (resolved : List String) : Option (List String) :=
  match resolved with
  | [] => some []
  | _ =>
      match env1.outdirFor lang with
      | none => none
      | some outdir => some (emitTargets outdir lang resolved)

/-- `_ProtocEmitter(target, source, env, output_lang)` (protoc.py lines
50-96).  `callingDir` is `Dir('.').srcnode().path`, the calling
SConscript's source directory; source elements are their `srcnode` paths.
The emitter first prepends `callingDir` to `PROTOCPROTOPATH`, then corrects
each source path, accumulates the per-language targets onto the incoming
target list, and finally appends `PROTOCFDSOUT` when that key is present
(the try/except KeyError block, lines 88-91).  The returned triple is
(new target list, corrected source list, environment after mutation). -/
def protocEmitter (callingDir : String) (target source : List String) (env : Env)
    (lang : Lang) : Option (List String × List String × Env) :=
  match perSrcTargets (emitEnvEffect callingDir env) lang
      (source.map (resolveSource callingDir)) with
  | none => none
  | some ts =>
      some (target ++ ts ++ (emitEnvEffect callingDir env).PROTOCFDSOUT.toList,
            source.map (resolveSource callingDir), emitEnvEffect callingDir env)

/-- SCons expansion of the default per-language output-flag templates
(`--cpp_out=$\x7bPROTOCOUTDIR\x7d` and friends, protoc.py lines 160-162)
against the current environment (an absent directory variable expands to
the empty string). -/
def langFlag (env : Env) : Lang → String
  | Lang.cpp => "--cpp_out=" ++ env.PROTOCOUTDIR.getD ""
  | Lang.python => "--python_out=" ++ env.PROTOCPYTHONOUTDIR.getD ""
  | Lang.java => "--java_out=" ++ env.PROTOCJAVAOUTDIR.getD ""

/-- SCons expansion of the `$\x7bPROTOCFDSOUT and ("-o"+PROTOCFDSOUT) or ""\x7d`
segment of `PROTOCCOM_START`: a `-o` flag exactly when the variable is set
and truthy (the empty string is falsy and expands to no token). -/
def fdsFlagTokens (env : Env) : List String :=
  match env.PROTOCFDSOUT with
  | some f => if f = "" then [] else ["-o" ++ f]
  | none => []

/-- SCons expansion of the `PROTOCCOM_START` template (protoc.py line 145)
into command-line tokens: the executable, one `-I` flag per
`PROTOCPROTOPATH` entry in list order, the global `PROTOCFLAGS`, then the
optional descriptor-set flag. -/
def comStart (env : Env) : List String :=
  env.PROTOC.toList
    ++ (env.PROTOCPROTOPATH.getD []).map (fun x => "-I" ++ x)
    ++ env.PROTOCFLAGS.getD []
    ++ fdsFlagTokens env

/-- Token expansion of a full action command
`$PROTOCCOM_START $PROTOC<LANG>FLAG $PROTOCCOM_END` (protoc.py lines
38-48, with `PROTOCCOM_END = $\x7bSOURCES\x7d`, line 147). -/
def commandTokens (env : Env) (lang : Lang) (sources : List String) : List String :=
  comStart env ++ [langFlag env lang] ++ sources

/-- A builder distinct from all three defaults, standing for a caller's
customized rule. -/
def customBuilder : Builder :=
  { action := "customized action", emitterLang := none, srcsuffix := ".custom" }

/-- Environment used to exercise the descriptor-set append: generated
defaults with a concrete cpp output directory and a configured
descriptor-set path. -/
def envC4 : Env :=
  { generate none emptyEnv with
    PROTOCOUTDIR := some "gen"
    PROTOCFDSOUT := some "all.fds" }

/-- Environment used to exercise command assembly: generated defaults with
one include directory and a configured descriptor-set path. -/
def envC8 : Env :=
  { generate none emptyEnv with
    PROTOCPROTOPATH := some ["inc"]
    PROTOCFDSOUT := some "all.fds" }

/-- Environment whose ProtocCPP builder was customized by the caller
before the tool is installed. -/
def envC5 : Env := { emptyEnv with builders := [("ProtocCPP", customBuilder)] }

theorem lcpList_self_append (l m : List Char) : lcpList l (l ++ m) = l := by
  induction l with
  | nil => rfl
  | cons a as ih => simp [lcpList, ih]

theorem drop_append_cons (b : List Char) (c : Char) (r : List Char) :
    (b ++ c :: r).drop (b.length + 1) = r := by
  induction b with
  | nil => rfl
  | cons x xs ih =>
      rw [List.cons_append, List.length_cons, List.drop_succ_cons]
      exact ih

theorem lookupB_append_of_some (bs : List (String × Builder)) (q : String × Builder)
    (k : String) (b : Builder) (h : lookupB bs k = some b) :
    lookupB (bs ++ [q]) k = some b := by
  induction bs with
  | nil => simp [lookupB] at h
  | cons p rest ih =>
      rw [List.cons_append]
      unfold lookupB at h ⊢
      by_cases hp : p.1 = k
      · rwa [if_pos hp] at h ⊢
      · rw [if_neg hp] at h ⊢
        exact ih h

theorem registerBuilders_preserves (d : List (String × Builder)) :
    ∀ (bs : List (String × Builder)) (k : String) (b : Builder),
      lookupB bs k = some b → lookupB (registerBuilders bs d) k = some b := by
  induction d with
  | nil => intro bs k b h; simpa [registerBuilders] using h
  | cons p rest ih =>
      intro bs k b h
      cases hl : lookupB bs p.1 with
      | some c => simp only [registerBuilders, hl]; exact ih bs k b h
      | none =>
          simp only [registerBuilders, hl]
          exact ih (bs ++ [p]) k b (lookupB_append_of_some bs p k b h)

theorem protocEmitter_env_eq (cdir : String) (t s : List String) (env : Env) (lang : Lang)
    (res : List String × List String × Env)
    (h : protocEmitter cdir t s env lang = some res) :
    res.2.2 = emitEnvEffect cdir env := by
  unfold protocEmitter at h
  cases hm : perSrcTargets (emitEnvEffect cdir env) lang (s.map (resolveSource cdir)) with
  | none => rw [hm] at h; cases h
  | some ts =>
      rw [hm] at h
      cases h
      rfl

/-- Claim C1, counterexample: the claim's specialization fails when
`base_dir` is empty.  An empty `base_dir` is a literal prefix of `/a`
aligned on a path separator, so the claim demands the result `a`; but the
common-prefix computation yields the empty string, so the code returns the
input unchanged. -/
theorem resolve_strip_counterexample :
    ("/a" : String) = "" ++ "/" ++ "a"
    ∧ resolveSource "" "/a" = "/a"
    ∧ ("/a" : String) ≠ "a" := by
  refine ⟨by decide, by decide, by decide⟩

/-- Claim C1, amended: the path resolver computes the longest common
string prefix of `base_dir` and `input_path`; if it is non-empty the
resolver drops that prefix plus one separator-width character from
`input_path`, and if it is empty it returns `input_path` unchanged.
Whenever a NON-EMPTY `base_dir` is a literal prefix of `input_path`
aligned on a path separator, the result is `input_path` with exactly
`base_dir` and the following separator stripped. -/
theorem resolve_strip_behavior (base src : String) :
    (resolveSource base src =
      if 0 < (strLcp base src).length then strDrop src ((strLcp base src).length + 1)
      else src)
    ∧ ∀ rest : String, base ≠ "" → src = base ++ "/" ++ rest →
        resolveSource base src = rest := by
  refine ⟨rfl, ?_⟩
  intro rest hb hsrc
  subst hsrc
  have hdata : (base ++ "/" ++ rest).data = base.data ++ '/' :: rest.data := by
    show (base.data ++ ('/' :: [])) ++ rest.data = base.data ++ '/' :: rest.data
    simp
  have hlcp : (strLcp base (base ++ "/" ++ rest)).data = base.data := by
    show lcpList base.data (base ++ "/" ++ rest).data = base.data
    rw [hdata]
    exact lcpList_self_append base.data ('/' :: rest.data)
  have hbd : base.data ≠ [] := by
    intro hnil
    apply hb
    cases base with
    | mk d =>
        change d = [] at hnil
        subst hnil
        rfl
  have hlen : 0 < (strLcp base (base ++ "/" ++ rest)).length := by
    show 0 < (strLcp base (base ++ "/" ++ rest)).data.length
    rw [hlcp]
    exact List.length_pos.mpr hbd
  show (if 0 < (strLcp base (base ++ "/" ++ rest)).length
        then strDrop (base ++ "/" ++ rest) ((strLcp base (base ++ "/" ++ rest)).length + 1)
        else base ++ "/" ++ rest) = rest
  rw [if_pos hlen]
  show String.mk ((base ++ "/" ++ rest).data.drop
      ((strLcp base (base ++ "/" ++ rest)).data.length + 1)) = rest
  rw [hlcp, hdata, drop_append_cons]

/-- Witness for `resolve_strip_behavior` at a concrete input. -/
theorem resolve_strip_behavior_witness :
    ("proj" : String) ≠ ""
    ∧ resolveSource "proj" ("proj" ++ "/" ++ "x.proto") = "x.proto" :=
  ⟨by decide,
   (resolve_strip_behavior "proj" ("proj" ++ "/" ++ "x.proto")).2 "x.proto" (by decide) rfl⟩

/-- Claim C2: for a relative input whose extension is `.proto` and stem is
`S`, the cpp prediction is exactly the pair
`[join(dir, S) ++ ".pb.cc", join(dir, S) ++ ".pb.h"]`, in that order. -/
theorem predict_outputs_cpp (src S dir : String)
    (h : ospath_splitext src = (S, ".proto")) :
    predictOutputs dir Lang.cpp src
      = [ospath_join dir S ++ ".pb.cc", ospath_join dir S ++ ".pb.h"] := by
  simp [predictOutputs, h]

/-- Witness for `predict_outputs_cpp` at a concrete input. -/
theorem predict_outputs_cpp_witness :
    ospath_splitext "pkg/msg.proto" = ("pkg/msg", ".proto")
    ∧ predictOutputs "gen" Lang.cpp "pkg/msg.proto"
        = [ospath_join "gen" "pkg/msg" ++ ".pb.cc", ospath_join "gen" "pkg/msg" ++ ".pb.h"] :=
  ⟨by decide, predict_outputs_cpp "pkg/msg.proto" "pkg/msg" "gen" (by decide)⟩

/-- Claim C3: for an input with stem `S`, python prediction is exactly
`[join(dir, S) ++ "_pb2.py"]` and java prediction is exactly
`[join(dir, S) ++ "_pb2.java"]`. -/
theorem predict_outputs_python_java (src S pdir jdir : String)
    (h : (ospath_splitext src).1 = S) :
    predictOutputs pdir Lang.python src = [ospath_join pdir S ++ "_pb2.py"]
    ∧ predictOutputs jdir Lang.java src = [ospath_join jdir S ++ "_pb2.java"] := by
  constructor <;> simp [predictOutputs, h]

/-- Witness for `predict_outputs_python_java` at a concrete input. -/
theorem predict_outputs_python_java_witness :
    (ospath_splitext "pkg/msg.proto").1 = "pkg/msg"
    ∧ predictOutputs "python" Lang.python "pkg/msg.proto"
        = [ospath_join "python" "pkg/msg" ++ "_pb2.py"]
    ∧ predictOutputs "java" Lang.java "pkg/msg.proto"
        = [ospath_join "java" "pkg/msg" ++ "_pb2.java"] :=
  ⟨by decide,
   (predict_outputs_python_java "pkg/msg.proto" "pkg/msg" "python" "java" (by decide)).1,
   (predict_outputs_python_java "pkg/msg.proto" "pkg/msg" "python" "java" (by decide)).2⟩

/-- Claim C4: with the language's output directory configured, the emitter
returns the incoming targets followed by the per-source predictions and
then, exactly once at the end, the configured descriptor-set path
(`env.PROTOCFDSOUT.toList` is `[f]` when the key holds `f` and `[]` when
the key is absent); in both cases the emitter succeeds. -/
theorem emitter_descriptor_set_append (cdir : String) (t s : List String) (env : Env)
    (lang : Lang) (d : String) (hd : env.outdirFor lang = some d) :
    protocEmitter cdir t s env lang
      = some (t ++ emitTargets d lang (s.map (resolveSource cdir))
                ++ env.PROTOCFDSOUT.toList,
              s.map (resolveSource cdir), emitEnvEffect cdir env) := by
  have hd1 : (emitEnvEffect cdir env).outdirFor lang = some d := by
    cases lang <;> exact hd
  unfold protocEmitter
  cases hres : s.map (resolveSource cdir) with
  | nil => rfl
  | cons a as =>
      have hper : perSrcTargets (emitEnvEffect cdir env) lang (a :: as)
          = some (emitTargets d lang (a :: as)) := by
        unfold perSrcTargets
        rw [hd1]
      rw [hper]
      rfl

/-- Witness for `emitter_descriptor_set_append` at a concrete input with a
configured descriptor-set path. -/
theorem emitter_descriptor_set_append_witness :
    Env.outdirFor envC4 Lang.cpp = some "gen"
    ∧ protocEmitter "sub" [] ["sub/a.proto"] envC4 Lang.cpp
        = some ([] ++ emitTargets "gen" Lang.cpp (["sub/a.proto"].map (resolveSource "sub"))
                  ++ envC4.PROTOCFDSOUT.toList,
                ["sub/a.proto"].map (resolveSource "sub"), emitEnvEffect "sub" envC4) :=
  ⟨rfl, emitter_descriptor_set_append "sub" [] ["sub/a.proto"] envC4 Lang.cpp "gen" rfl⟩

/-- Claim C5: installing the tool into an environment that already has a
builder under one of the three rule names keeps that builder: the lookup
after `generate` still returns the pre-existing builder value. -/
theorem generate_preserves_existing_builders (env : Env) (detect : Option String)
    (name : String) (b : Builder)
    (_hname : name ∈ builderDict.map Prod.fst)
    (h : lookupB env.builders name = some b) :
    lookupB (generate detect env).builders name = some b := by
  have hg : (generate detect env).builders = registerBuilders env.builders builderDict := rfl
  rw [hg]
  exact registerBuilders_preserves builderDict env.builders name b h

/-- Witness for `generate_preserves_existing_builders`: a customized
ProtocCPP builder survives installation. -/
theorem generate_preserves_existing_builders_witness :
    "ProtocCPP" ∈ builderDict.map Prod.fst
    ∧ lookupB envC5.builders "ProtocCPP" = some customBuilder
    ∧ lookupB (generate none envC5).builders "ProtocCPP" = some customBuilder :=
  ⟨by decide, rfl,
   generate_preserves_existing_builders envC5 none "ProtocCPP" customBuilder (by decide) rfl⟩

/-- Claim C6, counterexample: a caller-set configuration value does NOT
keep its prior value across installation; `generate` assigns
`PROTOCFLAGS` (and every other construction variable) unconditionally,
clobbering the caller's `["-custom"]`. -/
theorem generate_overwrites_config_counterexample :
    ({ emptyEnv with PROTOCFLAGS := some ["-custom"] } : Env).PROTOCFLAGS = some ["-custom"]
    ∧ (generate none { emptyEnv with PROTOCFLAGS := some ["-custom"] }).PROTOCFLAGS
        ≠ some ["-custom"] :=
  ⟨rfl, by decide⟩

/-- Claim C6, amended: installation preserves already-present builders and
never touches `PROTOCFDSOUT`, but it assigns every other configuration key
unconditionally to its default (executable name, empty flag and include
lists, command templates, per-language output directories and flag
templates, source suffix), regardless of any value the caller set
before installation. -/
theorem generate_config_effects (detect : Option String) (env : Env) :
    (generate detect env).PROTOC = some (pyOr detect "protoc")
    ∧ (generate detect env).PROTOCFLAGS = some []
    ∧ (generate detect env).PROTOCPROTOPATH = some []
    ∧ (generate detect env).PROTOCCOM_START = some protocComStartTemplate
    ∧ (generate detect env).PROTOCCOM_END = some "$\x7bSOURCES\x7d"
    ∧ (generate detect env).PROTOCOUTDIR = some "$\x7bSOURCE.dir\x7d"
    ∧ (generate detect env).PROTOCPYTHONOUTDIR = some "python"
    ∧ (generate detect env).PROTOCJAVAOUTDIR = some "java"
    ∧ (generate detect env).PROTOCJAVAFLAG = some "--java_out=$\x7bPROTOCJAVAOUTDIR\x7d"
    ∧ (generate detect env).PROTOCPYTHONFLAG = some "--python_out=$\x7bPROTOCPYTHONOUTDIR\x7d"
    ∧ (generate detect env).PROTOCCPPFLAG = some "--cpp_out=$\x7bPROTOCOUTDIR\x7d"
    ∧ (generate detect env).PROTOCSRCSUFFIX = some ".proto"
    ∧ (generate detect env).PROTOCFDSOUT = env.PROTOCFDSOUT :=
  ⟨rfl, rfl, rfl, rfl, rfl, rfl, rfl, rfl, rfl, rfl, rfl, rfl, rfl⟩

/-- Claim C7, counterexample: running the output-prediction emitter does
NOT leave the configuration environment unchanged — even with no sources
it prepends the calling directory to `PROTOCPROTOPATH`, so the returned
environment differs from the one passed in. -/
theorem emitter_mutates_env_counterexample :
    protocEmitter "sub" ([] : List String) [] (generate none emptyEnv) Lang.cpp
      = some ([], [], emitEnvEffect "sub" (generate none emptyEnv))
    ∧ emitEnvEffect "sub" (generate none emptyEnv) ≠ generate none emptyEnv :=
  ⟨rfl, by decide⟩

/-- Claim C7, amended: the emitter's only write to the environment is the
include-path prepend: the environment it returns equals the input
environment with `PROTOCPROTOPATH` replaced by the calling directory
consed onto the old list, every other key (builders, executable, flags,
templates, output directories, descriptor-set path) left unchanged.
Command construction (`commandTokens`) and per-path output prediction
(`predictOutputs`) take the configuration as an explicit value and write
nothing. -/
theorem emitter_frame_effect (cdir : String) (t s : List String) (env : Env) (lang : Lang)
    (res : List String × List String × Env)
    (h : protocEmitter cdir t s env lang = some res) :
    res.2.2 = { env with PROTOCPROTOPATH := some (cdir :: env.PROTOCPROTOPATH.getD []) } :=
  protocEmitter_env_eq cdir t s env lang res h

/-- Witness for `emitter_frame_effect` at a concrete input. -/
theorem emitter_frame_effect_witness :
    protocEmitter "sub" ([] : List String) [] (generate none emptyEnv) Lang.cpp
      = some ([], [], emitEnvEffect "sub" (generate none emptyEnv))
    ∧ emitEnvEffect "sub" (generate none emptyEnv)
      = { generate none emptyEnv with
          PROTOCPROTOPATH :=
            some ("sub" :: ((generate none emptyEnv).PROTOCPROTOPATH.getD [])) } :=
  ⟨rfl,
   emitter_frame_effect "sub" [] [] (generate none emptyEnv) Lang.cpp
     ([], [], emitEnvEffect "sub" (generate none emptyEnv)) rfl⟩

/-- Claim C8: the expanded command line is, in this exact order, the
executable, one `-I<dir>` flag per include directory in configuration
order, the global flags, the optional descriptor-set `-o` flag, the
language output flag, and the source files; the descriptor-set segment is
`["-o" ++ f]` exactly when a (truthy) descriptor-set path `f` is
configured and `[]` when the key is absent. -/
theorem command_token_order (env : Env) (lang : Lang) (sources : List String)
    (exe f : String) (hexe : env.PROTOC = some exe) :
    commandTokens env lang sources
      = [exe] ++ (env.PROTOCPROTOPATH.getD []).map (fun x => "-I" ++ x)
        ++ env.PROTOCFLAGS.getD [] ++ fdsFlagTokens env
        ++ [langFlag env lang] ++ sources
    ∧ (env.PROTOCFDSOUT = some f ∧ f ≠ "" → fdsFlagTokens env = ["-o" ++ f])
    ∧ (env.PROTOCFDSOUT = none → fdsFlagTokens env = []) := by
  refine ⟨?_, ?_, ?_⟩
  · simp [commandTokens, comStart, hexe, List.append_assoc]
  · intro hf
    simp [fdsFlagTokens, hf.1, hf.2]
  · intro hf
    simp [fdsFlagTokens, hf]

/-- Witness for `command_token_order` at a concrete environment with one
include directory and a configured descriptor-set path. -/
theorem command_token_order_witness :
    envC8.PROTOC = some "protoc"
    ∧ commandTokens envC8 Lang.python ["a.proto"]
        = ["protoc"] ++ (envC8.PROTOCPROTOPATH.getD []).map (fun x => "-I" ++ x)
          ++ envC8.PROTOCFLAGS.getD [] ++ fdsFlagTokens envC8
          ++ [langFlag envC8 Lang.python] ++ ["a.proto"] :=
  ⟨rfl, (command_token_order envC8 Lang.python ["a.proto"] "protoc" "all.fds" rfl).1⟩

/-- Claim C9: installation never fails on a missing executable; when
detection fails (`env.Detect` returns `None`) the `PROTOC` key is set to
the literal string `protoc`, and when detection succeeds with a (nonempty)
path `p` the key is set to `p`.  (`generate` is a total function of the
detection result and the environment: installation raises in neither
case.) -/
theorem generate_protoc_detection (env : Env) (p : String) (hp : p ≠ "") :
    (generate none env).PROTOC = some "protoc"
    ∧ (generate (some p) env).PROTOC = some p := by
  constructor
  · rfl
  · show some (pyOr (some p) "protoc") = some p
    simp [pyOr, hp]

/-- Witness for `generate_protoc_detection` at a concrete detected path. -/
theorem generate_protoc_detection_witness :
    ("/usr/bin/protoc" : String) ≠ ""
    ∧ (generate none emptyEnv).PROTOC = some "protoc"
    ∧ (generate (some "/usr/bin/protoc") emptyEnv).PROTOC = some "/usr/bin/protoc" :=
  ⟨by decide,
   (generate_protoc_detection emptyEnv "/usr/bin/protoc" (by decide)).1,
   (generate_protoc_detection emptyEnv "/usr/bin/protoc" (by decide)).2⟩

/-- Claim C10: every emitter invocation prepends the calling SConscript's
source directory to `PROTOCPROTOPATH`; iterating the emitter's environment
effect n times stacks n copies of that directory onto the include list, so
the `-I` flag segment of subsequently constructed commands gains one more
`-I<dir>` token per prediction and grows without bound. -/
theorem emitter_grows_protopath (env : Env) (dir : String) (lang : Lang)
    (t s : List String) (n : Nat) :
    (∀ res : List String × List String × Env,
        protocEmitter dir t s env lang = some res →
        res.2.2.PROTOCPROTOPATH = some (dir :: env.PROTOCPROTOPATH.getD []))
    ∧ ((emitEnvEffect dir)^[n] env).PROTOCPROTOPATH.getD []
        = List.replicate n dir ++ env.PROTOCPROTOPATH.getD []
    ∧ (((emitEnvEffect dir)^[n] env).PROTOCPROTOPATH.getD []).map (fun x => "-I" ++ x)
        = List.replicate n ("-I" ++ dir)
          ++ (env.PROTOCPROTOPATH.getD []).map (fun x => "-I" ++ x) := by
  have h2 : ∀ m : Nat, ((emitEnvEffect dir)^[m] env).PROTOCPROTOPATH.getD []
      = List.replicate m dir ++ env.PROTOCPROTOPATH.getD [] := by
    intro m
    induction m with
    | zero => rfl
    | succ m ih =>
        rw [Function.iterate_succ_apply']
        show dir :: ((emitEnvEffect dir)^[m] env).PROTOCPROTOPATH.getD []
            = List.replicate (m + 1) dir ++ env.PROTOCPROTOPATH.getD []
        rw [ih, List.replicate_succ, List.cons_append]
  refine ⟨?_, h2 n, ?_⟩
  · intro res h
    rw [protocEmitter_env_eq dir t s env lang res h]
    rfl
  · rw [h2 n, List.map_append, List.map_replicate]

/-- Witness for `emitter_grows_protopath`: one concrete emitter run
prepends the directory, and two iterations stack two copies. -/
theorem emitter_grows_protopath_witness :
    (emitEnvEffect "sub" (generate none emptyEnv)).PROTOCPROTOPATH
      = some ("sub" :: ((generate none emptyEnv).PROTOCPROTOPATH.getD []))
    ∧ ((emitEnvEffect "sub")^[2] (generate none emptyEnv)).PROTOCPROTOPATH.getD []
      = List.replicate 2 "sub" ++ ((generate none emptyEnv).PROTOCPROTOPATH.getD []) :=
  ⟨(emitter_grows_protopath (generate none emptyEnv) "sub" Lang.cpp [] [] 2).1
      ([], [], emitEnvEffect "sub" (generate none emptyEnv)) rfl,
   (emitter_grows_protopath (generate none emptyEnv) "sub" Lang.cpp [] [] 2).2.1⟩
